import Mathlib

/-!
Verification of the municipality report generator (json_static_generator).

This file gives a shallow embedding, in Lean 4, of the parts of the
program that the claims C1..C10 are about:

* src/config/settings.py        : NUMBER_FORMAT and THRESHOLDS constants
* src/processors/base.py        : format_number, format_percentage,
                                  calculate_change, calculate_avg,
                                  _get_previous_period
* src/processors/demographics.py: calculate_median_age
* src/processors/building_dev.py: process_permits_summary, process_permits_counts,
                                  process_permits_surface, process_permits_volume,
                                  process_permits, process_construction_activity,
                                  process_data
* src/processors/investment.py  : process_rental_market_potential
* src/generators/municipality.py: save_json, generate_for_commune, generate_all
* src/utils/json_utils.py       : JSON formatting (with the DecimalEncoder that
                                  municipality.py imports; its class body is not
                                  present in the sources, so it is modelled from
                                  the specification)

Python numbers (int and float) are embedded as rationals; Python None is
embedded through Option.  A Python expression that can raise a dynamic
TypeError (for instance an order comparison whose operand is None) is
embedded in the Except monad.
-/

namespace ImmoScore

/-! ## settings.py -/

/-- NUMBER_FORMAT["decimal_separator"] = "," -/
def decimal_separator : Char := ','

/-- NUMBER_FORMAT["thousands_separator"] = "." -/
def thousands_separator : Char := '.'

/-- NUMBER_FORMAT["decimal_places"] = 2 -/
def decimal_places_default : Nat := 2

/-- NUMBER_FORMAT["price_decimal_places"] = 0 -/
def price_decimal_places : Nat := 0

/-- NUMBER_FORMAT["percentage_decimal_places"] = 1 -/
def percentage_decimal_places : Nat := 1

/-- THRESHOLDS["high_unemployment"] = 12.0 -/
def high_unemployment : ℚ := 12

/-! ## Python fixed-point formatting

The embedding of the format specifier in the f-string
f"\x7bvalue:,.\x7bdecimal_places\x7df\x7d" used by BaseProcessor.format_number:
round to the requested number of decimals (ties to even, as binary floating
point formatting does), then write the integer part with a comma as the
thousands grouping character and a dot before the decimals. -/

/-- Round a rational to the nearest integer, ties to even. -/
def roundHalfEven (q : ℚ) : ℤ :=
  let f := ⌊q⌋
  let r := q - f
  if r < 1/2 then f
  else if 1/2 < r then f + 1
  else if f % 2 = 0 then f else f + 1

/-- Little-endian base-10 digits, with explicit fuel so that the
definition is structurally recursive (fuel n is enough for every n). -/
def digitsAux : Nat → Nat → List Nat
  | 0, _ => []
  | fuel + 1, n => if n = 0 then [] else n % 10 :: digitsAux fuel (n / 10)

/-- Little-endian base-10 digits of a natural number. -/
def natDigitsLE (n : Nat) : List Nat := digitsAux n n

/-- The character of one decimal digit. -/
def digitChar (d : Nat) : Char := Char.ofNat (48 + d)

/-- Insert the grouping comma after every three digits; the input and the
output are little-endian character lists. -/
def groupAux : Nat → List Char → List Char
  | _, [] => []
  | i, c :: cs =>
    if i ≠ 0 ∧ i % 3 = 0 then ',' :: c :: groupAux (i + 1) cs
    else c :: groupAux (i + 1) cs

/-- The integer part with thousands grouping, big-endian. -/
def natToGroupedChars (n : Nat) : List Char :=
  if n = 0 then ['0'] else (groupAux 0 ((natDigitsLE n).map digitChar)).reverse

/-- Exactly d decimal digits (zero padded), big-endian. -/
def fracChars (n d : Nat) : List Char :=
  let ds := (natDigitsLE n).map digitChar
  (ds ++ List.replicate (d - ds.length) '0').reverse

/-- The character list produced by the Python format specifier ",.df". -/
def pyFormatFixedChars (v : ℚ) (d : Nat) : List Char :=
  let n : Nat := (roundHalfEven (|v| * 10 ^ d)).toNat
  let ip := n / 10 ^ d
  let fp := n % 10 ^ d
  let sign : List Char := if v < 0 then ['-'] else []
  sign ++ natToGroupedChars ip ++ (if d = 0 then [] else '.' :: fracChars fp d)

/-- Replace every occurrence of one character by another. -/
def replaceChars (l : List Char) (a b : Char) : List Char :=
  l.map (fun c => if c = a then b else c)

/-! ## processors/base.py -/

/-- BaseProcessor.format_number, character-list form.  The value is an
optional rational (None gives "N/A"); the decimal-place count is optional
(None gives the configured default). -/
def format_number_chars (value : Option ℚ) (dp : Option Nat) : List Char :=
  match value with
  | none => "N/A".toList
  | some v =>
    let d := dp.getD decimal_places_default
    let formatted := pyFormatFixedChars v d
    let formatted :=
      if thousands_separator ≠ ',' then replaceChars formatted ',' thousands_separator
      else formatted
    let formatted :=
      if decimal_separator ≠ '.' then replaceChars formatted '.' decimal_separator
      else formatted
    formatted

/-- BaseProcessor.format_number. -/
def format_number (value : Option ℚ) (dp : Option Nat) : String :=
  String.mk (format_number_chars value dp)

/-- BaseProcessor.format_percentage (include_sign true appends "%"). -/
def format_percentage (value : Option ℚ) (include_sign : Bool) : String :=
  match value with
  | none => "N/A"
  | some v =>
    let formatted := format_number (some v) (some percentage_decimal_places)
    if include_sign then formatted ++ "%" else formatted

/-- BaseProcessor.calculate_change: percentage change between two values,
with the formatted signed string.  (None, "N/A") when either operand is
None or the previous value is zero. -/
def calculate_change (current_value previous_value : Option ℚ) :
    Option ℚ × String :=
  match current_value, previous_value with
  | some c, some p =>
    if p = 0 then (none, "N/A")
    else
      let change := ((c - p) / p) * 100
      let sign := if 0 ≤ change then "+" else ""
      (some change, sign ++ format_percentage (some change) true)
  | _, _ => (none, "N/A")

/-- BaseProcessor.calculate_avg. -/
def calculate_avg (total : Option ℚ) (count : Option ℚ) : Option ℚ :=
  match total, count with
  | some t, some c => if c = 0 then none else some (t / c)
  | _, _ => none

/-- BaseProcessor._get_previous_period, quarterly branch, on the parsed
year and quarter.  Python floor division and floor modulus are Int.fdiv
and Int.fmod. -/
def get_previous_period_quarterly (year quarter : ℤ) (num_periods_back : ℤ) :
    ℤ × ℤ :=
  let new_year := year - Int.fdiv num_periods_back 4
  let new_quarter := quarter - Int.fmod num_periods_back 4
  if new_quarter ≤ 0 then (new_year - 1, new_quarter + 4)
  else (new_year, new_quarter)

/-- BaseProcessor._get_previous_period on the period string.  Parsing
failures of int() are embedded as none. -/
def get_previous_period (period : String) (num_periods_back : ℤ) :
    Option String :=
  if period.contains '-' ∧ ((period.drop 5).take 1) = "Q" then
    match ((period.take 4).toNat?), (((period.drop 6).take 1).toNat?) with
    | some year, some quarter =>
      let p := get_previous_period_quarterly year quarter num_periods_back
      some (toString p.1 ++ "-Q" ++ toString p.2)
    | _, _ => none
  else
    (period.toInt?).map (fun y => toString (y - num_periods_back))

/-! ## processors/demographics.py : calculate_median_age

An exact-age distribution is embedded as a list of pairs of an age and the
list of per-sex population counts stored under the sexes key of that age
entry (the Python code sums them).  The median position is
total_population / 2 with Python true division. -/

/-- The walk over the sorted age distribution: accumulate population and
return the first age whose cumulative population reaches the median
position. -/
def medianScan (median_position : ℚ) : List (ℕ × ℕ) → ℕ → Option ℕ
  | [], _ => none
  | (age, population) :: rest, cumulative =>
    let cumulative := cumulative + population
    if median_position ≤ (cumulative : ℚ) then some age
    else medianScan median_position rest cumulative

/-- DemographicsProcessor.calculate_median_age. -/
def calculate_median_age (ages_data : List (ℕ × List ℕ)) (total_population : ℤ) :
    Option ℕ :=
  if ages_data = [] ∨ total_population ≤ 0 then none
  else
    let age_distribution := ages_data.map (fun e => (e.1, e.2.sum))
    if age_distribution = [] then none
    else
      let sorted := age_distribution.insertionSort (fun x y => x.1 ≤ y.1)
      medianScan ((total_population : ℚ) / 2) sorted 0

/-- Cumulative population of an age distribution up to and including a
given age (order independent; used to state what the walk returns). -/
def cumulative_population (dist : List (ℕ × ℕ)) (a : ℕ) : ℕ :=
  ((dist.filter (fun e => decide (e.1 ≤ a))).map Prod.snd).sum

/-! ## processors/building_dev.py

The raw record of the building-permits domain.  Every leaf that the
processor reads with a defaulted dictionary access is a field; a bucket
that may be a missing key or an empty mapping and is only read through
defaulted accesses afterwards is an Option (none plays the role of the
absent key, and a present empty mapping is the all-zero record, since
every read defaults to 0). -/

/-- The leaves of a permits-counts period bucket. -/
structure PermitCounts where
  total_buildings : ℚ
  residential_new_buildings : ℚ
  residential_new_dwellings : ℚ
  residential_new_houses : ℚ
  residential_new_apartments : ℚ
  residential_renovation_buildings : ℚ
  residential_renovation_dwellings : ℚ
  non_residential_new_buildings : ℚ
  non_residential_renovation_buildings : ℚ

/-- A permits-counts bucket read from an empty mapping. -/
def PermitCounts.zero : PermitCounts := ⟨0, 0, 0, 0, 0, 0, 0, 0, 0⟩

/-- The permits_counts raw record: current_data none means the key is
absent (the guard of process_permits returns the empty section then). -/
structure PermitsCountsBucket where
  current_data : Option PermitCounts
  previous_year_data : Option PermitCounts

/-- The leaves of a permits-surface period bucket. -/
structure PermitsSurface where
  total_surface_m2 : ℚ
  avg_surface_per_dwelling_m2 : ℚ

/-- A permits-surface bucket read from an empty mapping. -/
def PermitsSurface.zero : PermitsSurface := ⟨0, 0⟩

/-- The permits_surface raw record. -/
structure PermitsSurfaceBucket where
  current_data : Option PermitsSurface
  previous_year_data : Option PermitsSurface

/-- The leaves of a permits-volume period bucket. -/
structure PermitsVolume where
  total_volume_m3 : ℚ

/-- A permits-volume bucket read from an empty mapping. -/
def PermitsVolume.zero : PermitsVolume := ⟨0⟩

/-- The permits_volume raw record. -/
structure PermitsVolumeBucket where
  current_data : Option PermitsVolume
  previous_year_data : Option PermitsVolume

/-- The summary sub-section produced by process_permits_summary. -/
structure PermitsSummary where
  total_permits_ytd : ℚ
  trend_yoy : Option ℚ
  residential_ratio : ℚ

/-- The counts sub-section produced by process_permits_counts. -/
structure PermitsCountsOut where
  residential_new_buildings : ℚ
  residential_new_dwellings : ℚ
  residential_new_houses : ℚ
  residential_new_apartments : ℚ
  residential_renovation_buildings : ℚ
  residential_renovation_dwellings : ℚ
  non_residential_new_buildings : ℚ
  non_residential_renovation_buildings : ℚ

/-- The surface sub-section produced by process_permits_surface. -/
structure PermitsSurfaceOut where
  residential_new_construction_sqm : ℚ
  avg_dwelling_size_sqm : ℚ
  trend_yoy : Option ℚ

/-- The volume sub-section produced by process_permits_volume. -/
structure PermitsVolumeOut where
  non_residential_new_construction_cubic_m : ℚ
  trend_yoy : Option ℚ

/-- The permits section (empty, when the guard fires, is none). -/
structure PermitsResult where
  summary : PermitsSummary
  counts : PermitsCountsOut
  surface : PermitsSurfaceOut
  volume : PermitsVolumeOut

namespace BuildingDevProcessor

/-- BuildingDevProcessor.process_permits_summary. -/
def process_permits_summary (current_data : PermitCounts)
    (previous_year_data : Option PermitCounts) : PermitsSummary :=
  let total_buildings := current_data.total_buildings
  let total_permits_ytd := total_buildings
  let prev_total_buildings :=
    match previous_year_data with
    | some p => p.total_buildings
    | none => 0
  let change := calculate_change (some total_buildings) (some prev_total_buildings)
  let trend_yoy_value := change.1
  let residential_buildings :=
    current_data.residential_new_buildings + current_data.residential_renovation_buildings
  let _non_residential_buildings :=
    current_data.non_residential_new_buildings +
      current_data.non_residential_renovation_buildings
  let residential_ratio :=
    if total_buildings > 0 then residential_buildings / total_buildings else 0
  ⟨total_permits_ytd, trend_yoy_value, residential_ratio⟩

/-- BuildingDevProcessor.process_permits_counts. -/
def process_permits_counts (data : PermitCounts) : PermitsCountsOut :=
  ⟨data.residential_new_buildings, data.residential_new_dwellings,
    data.residential_new_houses, data.residential_new_apartments,
    data.residential_renovation_buildings, data.residential_renovation_dwellings,
    data.non_residential_new_buildings, data.non_residential_renovation_buildings⟩

/-- BuildingDevProcessor.process_permits_surface.  A zero average dwelling
size is falsy in Python, which triggers the fallback computation from the
counts data. -/
def process_permits_surface (current_data : PermitsSurface)
    (previous_year_data : Option PermitsSurface)
    (counts_data : PermitCounts) : PermitsSurfaceOut :=
  let total_surface_sqm := current_data.total_surface_m2
  let avg_dwelling_size_sqm := current_data.avg_surface_per_dwelling_m2
  let prev_surface :=
    match previous_year_data with
    | some p => p.total_surface_m2
    | none => 0
  let change := calculate_change (some total_surface_sqm) (some prev_surface)
  let trend_yoy_value := change.1
  let avg_dwelling_size_sqm :=
    if avg_dwelling_size_sqm = 0 then
      let dwellings_count := counts_data.residential_new_dwellings
      if dwellings_count > 0 then total_surface_sqm / dwellings_count
      else avg_dwelling_size_sqm
    else avg_dwelling_size_sqm
  ⟨total_surface_sqm, avg_dwelling_size_sqm, trend_yoy_value⟩

/-- BuildingDevProcessor.process_permits_volume. -/
def process_permits_volume (current_data : PermitsVolume)
    (previous_year_data : Option PermitsVolume) : PermitsVolumeOut :=
  let total_volume_cubic_m := current_data.total_volume_m3
  let prev_volume :=
    match previous_year_data with
    | some p => p.total_volume_m3
    | none => 0
  let change := calculate_change (some total_volume_cubic_m) (some prev_volume)
  ⟨total_volume_cubic_m, change.1⟩

/-- BuildingDevProcessor.process_permits.  The guard returns the empty
section (none) when the counts record is falsy or lacks current_data. -/
def process_permits (counts_data : Option PermitsCountsBucket)
    (surface_data : Option PermitsSurfaceBucket)
    (volume_data : Option PermitsVolumeBucket) : Option PermitsResult :=
  match counts_data with
  | none => none
  | some cb =>
    match cb.current_data with
    | none => none
    | some current_counts =>
      let previous_year_counts := cb.previous_year_data
      let current_surface :=
        (surface_data.bind (fun b => b.current_data)).getD PermitsSurface.zero
      let previous_year_surface := surface_data.bind (fun b => b.previous_year_data)
      let current_volume :=
        (volume_data.bind (fun b => b.current_data)).getD PermitsVolume.zero
      let previous_year_volume := volume_data.bind (fun b => b.previous_year_data)
      some ⟨process_permits_summary current_counts previous_year_counts,
        process_permits_counts current_counts,
        process_permits_surface current_surface previous_year_surface current_counts,
        process_permits_volume current_volume previous_year_volume⟩

end BuildingDevProcessor

/-- The supply_pipeline sub-section of construction_activity. -/
structure SupplyPipeline where
  residential_units_coming : ℚ
  estimated_completion_timeframe : String
  impact_on_supply : String

/-- The construction_activity section. -/
structure ConstructionActivity where
  construction_intensity_index : ℚ
  development_phase : String
  supply_pipeline : SupplyPipeline

namespace BuildingDevProcessor

/-- BuildingDevProcessor.process_construction_activity.  The input is the
result of process_permits (none embeds the empty, falsy, permits section).
When summary.trend_yoy is None, the first branch of the adjustment chain
guards against None but the following elif compares None with an int,
which raises a TypeError; this is embedded as Except.error. -/
def process_construction_activity (permits_data : Option PermitsResult) :
    Except String ConstructionActivity := do
  let state ←
    match permits_data with
    | none =>
      -- permits_data is falsy: the index keeps its default 0.5 and
      -- new_residential_dwellings never enters locals()
      pure ((0.5 : ℚ), (none : Option ℚ))
    | some pd => do
      let _total_permits := pd.summary.total_permits_ytd
      let trend_yoy := pd.summary.trend_yoy
      let _new_residential_buildings := pd.counts.residential_new_buildings
      let new_residential_dwellings := pd.counts.residential_new_dwellings
      let construction_intensity_index : ℚ := 0.5
      let construction_intensity_index ←
        match trend_yoy with
        | some t =>
          pure (if t > 20 then construction_intensity_index + 0.2
            else if t > 10 then construction_intensity_index + 0.1
            else if t < -10 then construction_intensity_index - 0.1
            else if t < -20 then construction_intensity_index - 0.2
            else construction_intensity_index)
        | none =>
          Except.error "TypeError: unorderable types NoneType and int"
      let construction_intensity_index :=
        if new_residential_dwellings > 100 then construction_intensity_index + 0.1
        else if new_residential_dwellings > 50 then construction_intensity_index + 0.05
        else construction_intensity_index
      pure (construction_intensity_index, some new_residential_dwellings)
  let construction_intensity_index := state.1
  let dwellings_in_locals := state.2
  let development_phase :=
    if construction_intensity_index > 0.8 then "Strong Growth"
    else if construction_intensity_index > 0.6 then "Moderate Growth"
    else if construction_intensity_index < 0.4 then "Slowdown"
    else if construction_intensity_index < 0.2 then "Stagnation"
    else "Stable"
  let residential_units_coming :=
    match dwellings_in_locals with
    | some d => d * 1.5
    | none => 0
  let impact_on_supply :=
    if residential_units_coming > 200 then "High"
    else if residential_units_coming < 50 then "Low"
    else "Medium"
  pure ⟨construction_intensity_index, development_phase,
    ⟨residential_units_coming, "18 months", impact_on_supply⟩⟩

/-- BuildingDevProcessor.process_data. -/
def process_data (data : Option PermitsCountsBucket × Option PermitsSurfaceBucket ×
    Option PermitsVolumeBucket) :
    Except String (Option PermitsResult × ConstructionActivity) := do
  let permits_result := process_permits data.1 data.2.1 data.2.2
  let construction_activity_result ← process_construction_activity permits_result
  pure (permits_result, construction_activity_result)

end BuildingDevProcessor

/-! ## processors/investment.py : process_rental_market_potential

Inputs are the already-processed sections.  Each defaulted dictionary
access collapses to: section absent (the outer Option is none, the
adjustment block is skipped), value defaulted to 0 (missing key), an
actual number, or Python None (the inner Option is none, in which case
the comparison against a number raises TypeError). -/

/-- What process_rental_market_potential reads from the real-estate
section: the median price of the municipality overview. -/
structure RentalRealEstateData where
  median_price : ℚ

/-- What process_rental_market_potential reads from the economic section:
the overall unemployment rate, which may be Python None. -/
structure RentalEconomicData where
  unemployment_overall_rate : Option ℚ

/-- What process_rental_market_potential reads from the demographic
section: the five-year population growth, which may be Python None. -/
structure RentalDemographicData where
  five_year_growth : Option ℚ

/-- The rental_market_potential section. -/
structure RentalMarketPotential where
  estimated_rental_yield : ℚ
  rental_demand_index : ℚ
  rental_growth_potential : String

namespace InvestmentProcessor

/-- rental_yield_params["default_gross_yield"] = 0.042 -/
def default_gross_yield : ℚ := 0.042

/-- InvestmentProcessor.process_rental_market_potential. -/
def process_rental_market_potential (real_estate_data : Option RentalRealEstateData)
    (economic_data : Option RentalEconomicData)
    (demographic_data : Option RentalDemographicData) :
    Except String RentalMarketPotential := do
  let _median_price :=
    match real_estate_data with
    | some r => r.median_price
    | none => 0
  let estimated_rental_yield := default_gross_yield
  let estimated_rental_yield ←
    match economic_data with
    | none => pure estimated_rental_yield
    | some e =>
      match e.unemployment_overall_rate with
      | none => Except.error "TypeError: unorderable types NoneType and float"
      | some unemployment_rate =>
        pure (if unemployment_rate > high_unemployment then estimated_rental_yield - 0.005
          else if unemployment_rate < high_unemployment / 2 then
            estimated_rental_yield + 0.003
          else estimated_rental_yield)
  let state ←
    match demographic_data with
    | none => pure ((0.5 : ℚ), estimated_rental_yield)
    | some d =>
      match d.five_year_growth with
      | none => Except.error "TypeError: unorderable types NoneType and int"
      | some five_year_growth =>
        pure (if five_year_growth > 5 then
            ((0.5 : ℚ) + 0.2, estimated_rental_yield + 0.003)
          else if five_year_growth > 2 then
            ((0.5 : ℚ) + 0.1, estimated_rental_yield + 0.001)
          else if five_year_growth < 0 then
            ((0.5 : ℚ) - 0.1, estimated_rental_yield - 0.001)
          else ((0.5 : ℚ), estimated_rental_yield))
  let rental_demand_index := state.1
  let estimated_rental_yield := state.2
  let rental_growth_potential :=
    if rental_demand_index > 0.7 then "Strong"
    else if rental_demand_index > 0.6 then "Good"
    else if rental_demand_index < 0.4 then "Weak"
    else if rental_demand_index < 0.3 then "Very weak"
    else "Moderate"
  pure ⟨estimated_rental_yield, rental_demand_index, rental_growth_potential⟩

end InvestmentProcessor

/-! ## utils/json_utils.py and generators/municipality.py : JSON output

The value universe of a report as handed to json.dumps: the native JSON
types plus arbitrary-precision Decimal values.  Arrays and objects are
mutually inductive lists so that all recursions below are structural. -/

mutual
inductive JVal where
  | null : JVal
  | bool (b : Bool) : JVal
  | num (q : ℚ) : JVal
  | str (s : String) : JVal
  | arr (xs : JArr) : JVal
  | obj (fs : JObj) : JVal
  | decimal (q : ℚ) : JVal
inductive JArr where
  | nil : JArr
  | cons (v : JVal) (rest : JArr) : JArr
inductive JObj where
  | nil : JObj
  | cons (key : String) (v : JVal) (rest : JObj) : JObj
end

/-- The JSON rendering of a number. -/
def renderNum (q : ℚ) : String :=
  if q.den = 1 then toString q.num else toString q

mutual
/-- json.dumps with the default encoder (json_utils.format_json): a
Decimal is not JSON serializable, the default hook raises TypeError,
embedded as none.  Indentation is not modelled. -/
def format_json : JVal → Option String
  | .null => some "null"
  | .bool b => some (if b then "true" else "false")
  | .num q => some (renderNum q)
  | .str s => some ("\"" ++ s ++ "\"")
  | .arr xs => (format_json_arr xs).map (fun body => "[" ++ body ++ "]")
  | .obj fs => (format_json_obj fs).map (fun body => "\x7b" ++ body ++ "\x7d")
  | .decimal _ => none
def format_json_arr : JArr → Option String
  | .nil => some ""
  | .cons v .nil => format_json v
  | .cons v rest => do
    let s ← format_json v
    let r ← format_json_arr rest
    pure (s ++ ", " ++ r)
def format_json_obj : JObj → Option String
  | .nil => some ""
  | .cons key v .nil => (format_json v).map (fun s => "\"" ++ key ++ "\": " ++ s)
  | .cons key v rest => do
    let s ← format_json v
    let r ← format_json_obj rest
    pure ("\"" ++ key ++ "\": " ++ s ++ ", " ++ r)
end

mutual
/-- Modelled from the spec: the DecimalEncoder class that
generators/municipality.py imports from src.utils.json_utils is absent
from the sources (only the import and the cls=DecimalEncoder call sites
exist), and the specification requires that numeric types requiring
special encoding (arbitrary-precision decimals) serialize as plain
numbers.  This is json.dumps with cls=DecimalEncoder: identical to the
default encoder except that the Decimal hook emits the plain number. -/
def format_json_decimal : JVal → Option String
  | .null => some "null"
  | .bool b => some (if b then "true" else "false")
  | .num q => some (renderNum q)
  | .str s => some ("\"" ++ s ++ "\"")
  | .arr xs => (format_json_decimal_arr xs).map (fun body => "[" ++ body ++ "]")
  | .obj fs => (format_json_decimal_obj fs).map (fun body => "\x7b" ++ body ++ "\x7d")
  | .decimal q => some (renderNum q)
def format_json_decimal_arr : JArr → Option String
  | .nil => some ""
  | .cons v .nil => format_json_decimal v
  | .cons v rest => do
    let s ← format_json_decimal v
    let r ← format_json_decimal_arr rest
    pure (s ++ ", " ++ r)
def format_json_decimal_obj : JObj → Option String
  | .nil => some ""
  | .cons key v .nil => (format_json_decimal v).map (fun s => "\"" ++ key ++ "\": " ++ s)
  | .cons key v rest => do
    let s ← format_json_decimal v
    let r ← format_json_decimal_obj rest
    pure ("\"" ++ key ++ "\": " ++ s ++ ", " ++ r)
end

mutual
/-- Replace every Decimal leaf by the same value as a plain number. -/
def stripDecimals : JVal → JVal
  | .null => .null
  | .bool b => .bool b
  | .num q => .num q
  | .str s => .str s
  | .arr xs => .arr (stripDecimalsArr xs)
  | .obj fs => .obj (stripDecimalsObj fs)
  | .decimal q => .num q
def stripDecimalsArr : JArr → JArr
  | .nil => .nil
  | .cons v rest => .cons (stripDecimals v) (stripDecimalsArr rest)
def stripDecimalsObj : JObj → JObj
  | .nil => .nil
  | .cons key v rest => .cons key (stripDecimals v) (stripDecimalsObj rest)
end

namespace MunicipalityGenerator

/-- MunicipalityGenerator.save_json: serializes with cls=DecimalEncoder
and returns True; any exception (for instance a serialization TypeError)
is caught and turned into False.  The file write itself is outside the
embedding. -/
def save_json (data : JVal) : Bool :=
  match format_json_decimal data with
  | some _ => true
  | none => false

end MunicipalityGenerator

/-! ## generators/municipality.py : batch orchestration

The per-municipality generation pipeline is embedded as an environment of
step oracles: get_commune_info either raises (Except.error), or reports
whether a non-empty commune_info record was found; extract_all_data and
the processing and metadata step either raise or succeed; save_json
catches internally and returns a boolean.  This is exactly the shape of
generate_for_commune, whose entire body runs inside one try/except that
converts any exception into False. -/

structure GenEnv where
  get_commune_info : ℕ → Except String Bool
  extract_all_data : ℕ → Except String Unit
  process_data_step : ℕ → Except String Unit
  save_json_result : ℕ → Bool

namespace MunicipalityGenerator

/-- MunicipalityGenerator.generate_for_commune. -/
def generate_for_commune (env : GenEnv) (commune_id : ℕ) : Bool :=
  match env.get_commune_info commune_id with
  | .error _ => false
  | .ok info_nonempty =>
    if ¬ info_nonempty then false
    else
      match env.extract_all_data commune_id with
      | .error _ => false
      | .ok _ =>
        match env.process_data_step commune_id with
        | .error _ => false
        | .ok _ => env.save_json_result commune_id

/-- MunicipalityGenerator.generate_all: the results dictionary, with the
communes list coming from the warehouse; an empty communes list returns
the empty mapping. -/
def generate_all (env : GenEnv) (communes : List ℕ) : List (ℕ × Bool) :=
  if communes = [] then []
  else communes.map (fun commune_id => (commune_id, generate_for_commune env commune_id))

/-- The success counter logged at the end of generate_all:
sum(1 for result in results.values() if result). -/
def success_count (results : List (ℕ × Bool)) : ℕ :=
  (results.filter (fun r => r.2)).length

end MunicipalityGenerator

/-! ## Helper lemmas -/

/-- Rounding an integer returns the integer. -/
lemma roundHalfEven_intCast (n : ℤ) : roundHalfEven ((n : ℚ)) = n := by
  simp [roundHalfEven]

/-- Rounding is at least the floor. -/
lemma floor_le_roundHalfEven (q : ℚ) : ⌊q⌋ ≤ roundHalfEven q := by
  unfold roundHalfEven
  dsimp only
  split_ifs <;> omega

/-- The character a replaced by b is gone afterwards. -/
lemma not_mem_replaceChars (l : List Char) (a b : Char) (hab : b ≠ a) :
    a ∉ replaceChars l a b := by
  intro hmem
  obtain ⟨c, hc, hfc⟩ := List.mem_map.mp hmem
  by_cases hca : c = a
  · rw [if_pos hca] at hfc
    exact hab hfc
  · rw [if_neg hca] at hfc
    exact hca hfc

/-- After the two separator replacements of format_number, a character
that was a comma or a dot is a comma. -/
lemma comma_mem_of_sep_mem (l : List Char) (c : Char) (hc : c ∈ l)
    (h : c = ',' ∨ c = '.') :
    ',' ∈ replaceChars (replaceChars l ',' '.') '.' ',' := by
  rcases h with h | h
  · subst h
    have h1 : '.' ∈ replaceChars l ',' '.' := by
      refine List.mem_map.mpr ⟨',', hc, ?_⟩
      simp
    refine List.mem_map.mpr ⟨'.', h1, ?_⟩
    simp
  · subst h
    have h1 : '.' ∈ replaceChars l ',' '.' := by
      refine List.mem_map.mpr ⟨'.', hc, ?_⟩
      simp
    refine List.mem_map.mpr ⟨'.', h1, ?_⟩
    simp

/-- A number with at least k+1 decimal digits has a digit list of length
at least k+1. -/
lemma digitsAux_length (fuel : ℕ) : ∀ (n k : ℕ), n ≤ fuel → 10 ^ k ≤ n →
    k + 1 ≤ (digitsAux fuel n).length := by
  induction fuel with
  | zero =>
    intro n k hn hk
    have : (1:ℕ) ≤ 10 ^ k := Nat.one_le_pow _ _ (by norm_num)
    omega
  | succ fuel ih =>
    intro n k hn hk
    have hn0 : n ≠ 0 := by
      have : (1:ℕ) ≤ 10 ^ k := Nat.one_le_pow _ _ (by norm_num)
      omega
    rw [digitsAux, if_neg hn0]
    simp only [List.length_cons]
    cases k with
    | zero => omega
    | succ j =>
      have hdiv : 10 ^ j ≤ n / 10 := by
        rw [Nat.le_div_iff_mul_le (by norm_num)]
        calc 10 ^ j * 10 = 10 ^ (j + 1) := by ring
        _ ≤ n := hk
      have hfuel : n / 10 ≤ fuel := by
        have := Nat.div_lt_self (Nat.pos_of_ne_zero hn0) (by norm_num : (1:ℕ) < 10)
        omega
      have := ih (n / 10) j hfuel hdiv
      omega

/-- The grouped digit list of a number with at least four digits contains
the grouping comma. -/
lemma comma_mem_groupAux (l : List Char) (h : 4 ≤ l.length) :
    ',' ∈ groupAux 0 l := by
  match l with
  | a :: b :: c :: e :: rest =>
    show ',' ∈ groupAux 0 (a :: b :: c :: e :: rest)
    rw [groupAux, if_neg (by norm_num), groupAux, if_neg (by norm_num),
      groupAux, if_neg (by norm_num), groupAux, if_pos (by norm_num)]
    simp

/-- The grouped rendering of a natural number of at least 1000 contains
the grouping comma. -/
lemma comma_mem_natToGroupedChars (n : ℕ) (h : 1000 ≤ n) :
    ',' ∈ natToGroupedChars n := by
  have hne : n ≠ 0 := by omega
  rw [natToGroupedChars, if_neg hne, List.mem_reverse]
  apply comma_mem_groupAux
  rw [List.length_map, natDigitsLE]
  have h3 : 10 ^ 3 ≤ n := by norm_num [h]
  have := digitsAux_length n n 3 le_rfl h3
  omega

/-- Reduction of an Except bind on a success value. -/
lemma exceptBind_ok {α β : Type} (a : α) (f : α → Except String β) :
    (Except.ok a >>= f) = f a := rfl

/-- Reduction of an Except bind on an error. -/
lemma exceptBind_error {α β : Type} (e : String) (f : α → Except String β) :
    ((Except.error e : Except String α) >>= f) = Except.error e := rfl

/-- Pure of the Except monad is ok. -/
lemma exceptPure {α : Type} (a : α) : (pure a : Except String α) = Except.ok a := rfl

/-- The rental growth potential ladder evaluated at each reachable value
of the demand index. -/
lemma ladder_moderate_or_good (idx : ℚ)
    (h : idx = 0.5 ∨ idx = 0.7 ∨ idx = 0.6 ∨ idx = 0.4) :
    (if idx > 0.7 then "Strong"
      else if idx > 0.6 then "Good"
      else if idx < 0.4 then "Weak"
      else if idx < 0.3 then "Very weak"
      else "Moderate") = "Moderate" ∨
    (if idx > 0.7 then "Strong"
      else if idx > 0.6 then "Good"
      else if idx < 0.4 then "Weak"
      else if idx < 0.3 then "Very weak"
      else "Moderate") = "Good" := by
  rcases h with h | h | h | h <;> subst h <;> norm_num

/-- Every successful run of process_rental_market_potential labels the
growth potential Moderate or Good. -/
lemma rental_label_moderate_or_good :
    ∀ re eco demo r, InvestmentProcessor.process_rental_market_potential re eco demo
        = Except.ok r →
      r.rental_growth_potential = "Moderate" ∨ r.rental_growth_potential = "Good" := by
  intro re eco demo r h
  rcases eco with _ | ⟨eu⟩
  · rcases demo with _ | ⟨dg⟩
    · simp only [InvestmentProcessor.process_rental_market_potential, exceptPure,
        exceptBind_ok, exceptBind_error] at h
      rw [Except.ok.injEq] at h
      subst h
      exact ladder_moderate_or_good 0.5 (by norm_num)
    · rcases dg with _ | g
      · simp only [InvestmentProcessor.process_rental_market_potential, exceptPure,
          exceptBind_ok, exceptBind_error] at h
        exact Except.noConfusion h
      · simp only [InvestmentProcessor.process_rental_market_potential, exceptPure,
          exceptBind_ok, exceptBind_error] at h
        rw [Except.ok.injEq] at h
        subst h
        apply ladder_moderate_or_good
        split_ifs <;> norm_num
  · rcases eu with _ | u
    · rcases demo with _ | ⟨dg⟩ <;>
        simp only [InvestmentProcessor.process_rental_market_potential, exceptPure,
          exceptBind_ok, exceptBind_error] at h <;>
        exact Except.noConfusion h
    · rcases demo with _ | ⟨dg⟩
      · simp only [InvestmentProcessor.process_rental_market_potential, exceptPure,
          exceptBind_ok, exceptBind_error] at h
        rw [Except.ok.injEq] at h
        subst h
        exact ladder_moderate_or_good 0.5 (by norm_num)
      · rcases dg with _ | g
        · simp only [InvestmentProcessor.process_rental_market_potential, exceptPure,
            exceptBind_ok, exceptBind_error] at h
          exact Except.noConfusion h
        · simp only [InvestmentProcessor.process_rental_market_potential, exceptPure,
            exceptBind_ok, exceptBind_error] at h
          rw [Except.ok.injEq] at h
          subst h
          apply ladder_moderate_or_good
          split_ifs <;> norm_num

/-- Cumulative population splits on the head of the distribution. -/
lemma cumulative_population_cons (k p : ℕ) (rest : List (ℕ × ℕ)) (x : ℕ) :
    cumulative_population ((k, p) :: rest) x =
      (if k ≤ x then p else 0) + cumulative_population rest x := by
  rw [cumulative_population, cumulative_population, List.filter_cons]
  split_ifs with h1 h2 h3
  · simp
  · simp at h1
    omega
  · simp at h1
    omega
  · simp

/-- Cumulative population vanishes below every key. -/
lemma cumulative_population_eq_zero (rest : List (ℕ × ℕ)) (x : ℕ)
    (h : ∀ y ∈ rest, x < y.1) : cumulative_population rest x = 0 := by
  rw [cumulative_population]
  have he : rest.filter (fun e => decide (e.1 ≤ x)) = [] := by
    rw [List.filter_eq_nil_iff]
    intro e he
    have := h e he
    simp
    omega
  rw [he]
  simp

/-- What the cumulative walk returns on a strictly ascending
distribution: the least age whose cumulative population, on top of the
accumulator, reaches the median position. -/
lemma medianScan_some_iff (pos : ℚ) :
    ∀ (l : List (ℕ × ℕ)) (c : ℕ), l.Pairwise (fun x y => x.1 < y.1) →
    ∀ a, (medianScan pos l c = some a ↔
      (a ∈ l.map Prod.fst ∧
        pos ≤ (c : ℚ) + (cumulative_population l a : ℚ) ∧
        ∀ b ∈ l.map Prod.fst, b < a →
          ((c : ℚ) + (cumulative_population l b : ℚ) < pos))) := by
  intro l
  induction l with
  | nil =>
    intro c _ a
    simp [medianScan]
  | cons hd rest ih =>
    obtain ⟨k, p⟩ := hd
    intro c hpair a
    rw [List.pairwise_cons] at hpair
    obtain ⟨hk, hrest⟩ := hpair
    have hgt : ∀ b ∈ rest.map Prod.fst, k < b := by
      intro b hb
      obtain ⟨y, hy, hfy⟩ := List.mem_map.mp hb
      have := hk y hy
      omega
    have hcum_k : cumulative_population ((k, p) :: rest) k = p := by
      rw [cumulative_population_cons, if_pos le_rfl,
        cumulative_population_eq_zero rest k (fun y hy => hk y hy)]
      omega
    by_cases hcross : pos ≤ ((c + p : ℕ) : ℚ)
    · rw [show medianScan pos ((k, p) :: rest) c = some k by
        rw [medianScan, if_pos (by push_cast at hcross ⊢; linarith)]]
      constructor
      · intro h
        rw [Option.some.injEq] at h
        subst h
        refine ⟨by simp, ?_, ?_⟩
        · rw [hcum_k]
          push_cast at hcross ⊢
          linarith
        · intro b hb hba
          rw [List.map_cons] at hb
          rcases List.mem_cons.mp hb with heq | hmem2
          · omega
          · have := hgt b hmem2
            omega
      · rintro ⟨hmem, hle, hmin⟩
        rw [List.map_cons] at hmem
        rcases List.mem_cons.mp hmem with heq | hmem2
        · rw [heq]
        · exfalso
          have hka : k < a := hgt a hmem2
          have := hmin k (by simp) hka
          rw [hcum_k] at this
          push_cast at this hcross
          linarith
    · rw [show medianScan pos ((k, p) :: rest) c = medianScan pos rest (c + p) by
        rw [medianScan,
          if_neg (by push_cast at hcross ⊢; intro hc; exact hcross (by linarith))]]
      rw [ih (c + p) hrest a]
      constructor
      · rintro ⟨hmem, hle, hmin⟩
        have hka : k < a := hgt a hmem
        refine ⟨by simp [hmem], ?_, ?_⟩
        · rw [cumulative_population_cons, if_pos (le_of_lt hka)]
          push_cast at hle ⊢
          linarith
        · intro b hb hba
          rw [List.map_cons] at hb
          rcases List.mem_cons.mp hb with heq | hmem2
          · subst heq
            rw [hcum_k]
            push_cast at hcross ⊢
            linarith
          · have hkb : k < b := hgt b hmem2
            have := hmin b hmem2 hba
            rw [cumulative_population_cons, if_pos (le_of_lt hkb)]
            push_cast at this ⊢
            linarith
      · rintro ⟨hmem, hle, hmin⟩
        rw [List.map_cons] at hmem
        rcases List.mem_cons.mp hmem with heq | hmem2
        · exfalso
          subst heq
          rw [hcum_k] at hle
          push_cast at hle hcross
          linarith
        · have hka : k < a := hgt a hmem2
          refine ⟨hmem2, ?_, ?_⟩
          · rw [cumulative_population_cons, if_pos (le_of_lt hka)] at hle
            push_cast at hle ⊢
            linarith
          · intro b hb hba
            have hkb : k < b := hgt b hb
            have := hmin b (by rw [List.map_cons]; exact List.mem_cons_of_mem _ hb) hba
            rw [cumulative_population_cons, if_pos (le_of_lt hkb)] at this
            push_cast at this ⊢
            linarith

mutual
/-- The DecimalEncoder serialization equals the default serialization
after replacing each Decimal by the plain number. -/
theorem format_json_decimal_eq_strip :
    (v : JVal) → format_json_decimal v = format_json (stripDecimals v)
  | .null => rfl
  | .bool b => rfl
  | .num q => rfl
  | .str s => rfl
  | .arr xs => by
    rw [format_json_decimal, stripDecimals, format_json, format_json_decimal_arr_eq_strip xs]
  | .obj fs => by
    rw [format_json_decimal, stripDecimals, format_json, format_json_decimal_obj_eq_strip fs]
  | .decimal q => rfl
/-- Array case of format_json_decimal_eq_strip. -/
theorem format_json_decimal_arr_eq_strip :
    (xs : JArr) → format_json_decimal_arr xs = format_json_arr (stripDecimalsArr xs)
  | .nil => rfl
  | .cons v .nil => by
    simp only [format_json_decimal_arr, stripDecimalsArr, format_json_arr,
      format_json_decimal_eq_strip v]
  | .cons v (.cons w rest) => by
    simp only [format_json_decimal_arr, stripDecimalsArr, format_json_arr,
      format_json_decimal_eq_strip v, format_json_decimal_arr_eq_strip (JArr.cons w rest)]
/-- Object case of format_json_decimal_eq_strip. -/
theorem format_json_decimal_obj_eq_strip :
    (fs : JObj) → format_json_decimal_obj fs = format_json_obj (stripDecimalsObj fs)
  | .nil => rfl
  | .cons k v .nil => by
    simp only [format_json_decimal_obj, stripDecimalsObj, format_json_obj,
      format_json_decimal_eq_strip v]
  | .cons k v (.cons k2 w rest) => by
    simp only [format_json_decimal_obj, stripDecimalsObj, format_json_obj,
      format_json_decimal_eq_strip v, format_json_decimal_obj_eq_strip (JObj.cons k2 w rest)]
end

mutual
/-- The DecimalEncoder serialization is defined on every report value. -/
theorem format_json_decimal_isSome : (v : JVal) → (format_json_decimal v).isSome = true
  | .null => rfl
  | .bool b => rfl
  | .num q => rfl
  | .str s => rfl
  | .arr xs => by
    obtain ⟨s, hs⟩ := Option.isSome_iff_exists.mp (format_json_decimal_arr_isSome xs)
    rw [format_json_decimal, hs]
    rfl
  | .obj fs => by
    obtain ⟨s, hs⟩ := Option.isSome_iff_exists.mp (format_json_decimal_obj_isSome fs)
    rw [format_json_decimal, hs]
    rfl
  | .decimal q => rfl
/-- Array case of format_json_decimal_isSome. -/
theorem format_json_decimal_arr_isSome :
    (xs : JArr) → (format_json_decimal_arr xs).isSome = true
  | .nil => rfl
  | .cons v .nil => by
    simp only [format_json_decimal_arr]
    exact format_json_decimal_isSome v
  | .cons v (.cons w rest) => by
    obtain ⟨s, hs⟩ := Option.isSome_iff_exists.mp (format_json_decimal_isSome v)
    obtain ⟨r, hr⟩ :=
      Option.isSome_iff_exists.mp (format_json_decimal_arr_isSome (JArr.cons w rest))
    simp only [format_json_decimal_arr, hs, hr]
    rfl
/-- Object case of format_json_decimal_isSome. -/
theorem format_json_decimal_obj_isSome :
    (fs : JObj) → (format_json_decimal_obj fs).isSome = true
  | .nil => rfl
  | .cons k v .nil => by
    obtain ⟨s, hs⟩ := Option.isSome_iff_exists.mp (format_json_decimal_isSome v)
    simp only [format_json_decimal_obj, hs]
    rfl
  | .cons k v (.cons k2 w rest) => by
    obtain ⟨s, hs⟩ := Option.isSome_iff_exists.mp (format_json_decimal_isSome v)
    obtain ⟨r, hr⟩ :=
      Option.isSome_iff_exists.mp (format_json_decimal_obj_isSome (JObj.cons k2 w rest))
    simp only [format_json_decimal_obj, hs, hr]
    rfl
end

/-- The batch environment of end-to-end scenario 4: five municipalities,
the warehouse connection failing during extraction for municipality 3. -/
def batch_env : GenEnv :=
  ⟨fun _ => Except.ok true,
    fun commune_id =>
      if commune_id = 3 then Except.error "connection failure" else Except.ok (),
    fun _ => Except.ok (),
    fun _ => true⟩

/-- The development phase ladder and the index bounds evaluated at each
reachable value of the construction intensity index. -/
lemma construction_ladder_stable_or_moderate (idx : ℚ)
    (h : idx = 0.4 ∨ idx = 0.45 ∨ idx = 0.5 ∨ idx = 0.55 ∨ idx = 0.6 ∨
      idx = 0.65 ∨ idx = 0.7 ∨ idx = 0.75 ∨ idx = 0.8) :
    ((0.4 : ℚ) ≤ idx ∧ idx ≤ 0.8) ∧
    ((if idx > 0.8 then "Strong Growth"
        else if idx > 0.6 then "Moderate Growth"
        else if idx < 0.4 then "Slowdown"
        else if idx < 0.2 then "Stagnation"
        else "Stable") = "Stable" ∨
      (if idx > 0.8 then "Strong Growth"
        else if idx > 0.6 then "Moderate Growth"
        else if idx < 0.4 then "Slowdown"
        else if idx < 0.2 then "Stagnation"
        else "Stable") = "Moderate Growth") := by
  rcases h with h | h | h | h | h | h | h | h | h <;> subst h <;> norm_num

/-! ## Claim theorems -/

/-- C1: calculate_change(current, previous) returns (None, "N/A") if and
only if previous is None, previous is 0, or current is None; in every
other case its numeric component is 100*(current-previous)/previous, and
under the default configuration (decimal separator comma, one percentage
decimal place) calculate_change(110, 100) returns (10.0, "+10,0%"). -/
theorem calculate_change_spec :
    (∀ current previous : Option ℚ,
      calculate_change current previous = (none, "N/A") ↔
        previous = none ∨ previous = some 0 ∨ current = none) ∧
    (∀ c p : ℚ, p ≠ 0 →
      (calculate_change (some c) (some p)).1 = some (100 * (c - p) / p)) ∧
    calculate_change (some 110) (some 100) = (some 10, "+10,0%") := by
  refine ⟨?_, ?_, ?_⟩
  · intro current previous
    match current, previous with
    | none, none => simp [calculate_change]
    | none, some p => simp [calculate_change]
    | some c, none => simp [calculate_change]
    | some c, some p =>
      by_cases hp : p = 0
      · subst hp
        simp [calculate_change]
      · simp [calculate_change, hp]
  · intro c p hp
    simp only [calculate_change, if_neg hp]
    congr 1
    ring
  · have h1 : ((110:ℚ) - 100) / 100 * 100 = 10 := by norm_num
    simp only [calculate_change, h1]
    norm_num
    have h : roundHalfEven ((|(10:ℚ)|) * 10 ^ 1) = 100 := by norm_num [roundHalfEven]
    have hv : ¬ (10:ℚ) < 0 := by norm_num
    simp only [format_percentage, format_number, format_number_chars, pyFormatFixedChars, h, hv,
      if_false, percentage_decimal_places, Option.getD]
    decide

/-- Witness for C1: the change formula instantiated at (110, 100). -/
theorem calculate_change_spec_witness :
    (100:ℚ) ≠ 0 ∧
    (calculate_change (some 110) (some 100)).1 = some (100 * (110 - 100) / 100) :=
  ⟨by norm_num, calculate_change_spec.2.1 110 100 (by norm_num)⟩

/-- C7: for every valid quarter 1 ≤ K ≤ 4, backing a quarterly period up
by 4 periods decrements the year and keeps the quarter, and for every
N ≥ 0 the derived quarter is normalized into [1, 4] (the year borrow is
the subtraction built into the normalization branch). -/
theorem get_previous_period_quarterly_spec :
    ∀ year quarter : ℤ, 1 ≤ quarter → quarter ≤ 4 →
      get_previous_period_quarterly year quarter 4 = (year - 1, quarter) ∧
      ∀ n : ℤ, 0 ≤ n →
        1 ≤ (get_previous_period_quarterly year quarter n).2 ∧
        (get_previous_period_quarterly year quarter n).2 ≤ 4 := by
  intro year quarter h1 h4
  constructor
  · have hd : Int.fdiv 4 4 = 1 := by decide
    have hm : Int.fmod 4 4 = 0 := by decide
    simp only [get_previous_period_quarterly, hd, hm]
    rw [if_neg (by omega)]
    rw [Prod.mk.injEq]
    omega
  · intro n hn
    have hm0 : 0 ≤ Int.fmod n 4 := Int.fmod_nonneg' n (by norm_num)
    have hm4 : Int.fmod n 4 < 4 := Int.fmod_lt_of_pos n (by norm_num)
    simp only [get_previous_period_quarterly]
    split_ifs with h <;> constructor <;> simp only [] <;> omega

/-- Witness for C7: 2024-Q4 backed up 4 quarters is 2023-Q4, and backed
up 20 quarters the quarter is still within [1, 4]. -/
theorem get_previous_period_quarterly_spec_witness :
    get_previous_period_quarterly 2024 4 4 = (2023, 4) ∧
    (1 ≤ (get_previous_period_quarterly 2024 4 20).2 ∧
      (get_previous_period_quarterly 2024 4 20).2 ≤ 4) := by
  refine ⟨?_, ?_⟩
  · have h := (get_previous_period_quarterly_spec 2024 4 (by norm_num) (by norm_num)).1
    simpa using h
  · exact (get_previous_period_quarterly_spec 2024 4 (by norm_num) (by norm_num)).2 20
      (by norm_num)

/-- C10: under the default number format, for every value of absolute
value at least 1000 the output of format_number contains no dot at all
and does contain a comma (the grouping separator and the decimal point
are both rewritten to the comma), and format_number(1234.5, 1) is
"1,234,5". -/
theorem format_number_spec :
    (∀ (q : ℚ) (d : ℕ), 1000 ≤ |q| →
      '.' ∉ (format_number (some q) (some d)).toList ∧
      ',' ∈ (format_number (some q) (some d)).toList) ∧
    format_number (some (2469/2)) (some 1) = "1,234,5" := by
  constructor
  · intro q d h
    have e0 : (format_number (some q) (some d)).toList = format_number_chars (some q) (some d) :=
      rfl
    have e1 : format_number_chars (some q) (some d)
        = replaceChars (replaceChars (pyFormatFixedChars q d) ',' '.') '.' ',' := by
      simp [format_number_chars, thousands_separator, decimal_separator]
    constructor
    · rw [e0, e1]
      exact not_mem_replaceChars _ '.' ',' (by decide)
    · rw [e0, e1]
      cases d with
      | zero =>
        have hn : 1000 ≤ ((roundHalfEven ((|q|) * 10 ^ 0)).toNat) := by
          have hfl : (1000:ℤ) ≤ ⌊(|q|) * 10 ^ 0⌋ := by
            rw [pow_zero, mul_one]
            exact Int.le_floor.mpr (by exact_mod_cast h)
          have h2 := floor_le_roundHalfEven ((|q|) * 10 ^ 0)
          omega
        have hmem := comma_mem_natToGroupedChars
          ((roundHalfEven ((|q|) * 10 ^ 0)).toNat / 10 ^ 0) (by simpa using hn)
        apply comma_mem_of_sep_mem _ ',' _ (Or.inl rfl)
        simp only [pyFormatFixedChars, List.mem_append]
        exact Or.inl (Or.inr hmem)
      | succ k =>
        apply comma_mem_of_sep_mem _ '.' _ (Or.inr rfl)
        simp [pyFormatFixedChars, List.mem_append]
  · have h : roundHalfEven ((|(2469/2:ℚ)|) * 10 ^ 1) = 12345 := by
      rw [show ((|(2469/2:ℚ)|)) * 10 ^ 1 = ((12345:ℤ):ℚ) by
        rw [abs_of_nonneg (by norm_num : (0:ℚ) ≤ 2469/2)]
        push_cast
        norm_num]
      exact roundHalfEven_intCast 12345
    have hv : ¬ (2469/2:ℚ) < 0 := by norm_num
    simp only [format_number, format_number_chars, pyFormatFixedChars, h, hv, if_false,
      Option.getD]
    decide

/-- Witness for C10: the universal part instantiated at 1234.5 with one
decimal place. -/
theorem format_number_spec_witness :
    (1000:ℚ) ≤ |((2469:ℚ)/2)| ∧
    ('.' ∉ (format_number (some ((2469:ℚ)/2)) (some 1)).toList ∧
      ',' ∈ (format_number (some ((2469:ℚ)/2)) (some 1)).toList) :=
  ⟨by rw [abs_of_nonneg (by norm_num : (0:ℚ) ≤ 2469/2)]; norm_num,
    format_number_spec.1 (2469/2) 1
      (by rw [abs_of_nonneg (by norm_num : (0:ℚ) ≤ 2469/2)]; norm_num)⟩

/-- C2: the code violates the claim.  On a building-permits raw record
whose counts bucket has a non-empty current_data (total buildings 5) and
an empty previous_year_data mapping, the year-over-year trend computed by
calculate_change is None, and process_data raises a TypeError instead of
returning a section: the first adjustment branch of
process_construction_activity guards trend_yoy against None but the
following elif compares None with an int. -/
theorem building_dev_trend_none_raises :
    BuildingDevProcessor.process_data
      (some ⟨some ⟨5, 0, 0, 0, 0, 0, 0, 0, 0⟩, some PermitCounts.zero⟩, none, none) =
    Except.error "TypeError: unorderable types NoneType and int" := by
  simp [BuildingDevProcessor.process_data, BuildingDevProcessor.process_permits,
    BuildingDevProcessor.process_construction_activity,
    BuildingDevProcessor.process_permits_summary, calculate_change, PermitCounts.zero]

/-- C6: the code violates the claim for the building-development domain
processor.  On the record whose permits_counts bucket carries a present
but empty current_data mapping (every defaulted read yields 0, so the
guard of process_permits passes and the trend is None), process_data
raises a TypeError instead of returning an empty section without error. -/
theorem building_dev_empty_current_raises :
    BuildingDevProcessor.process_data
      (some ⟨some PermitCounts.zero, none⟩, none, none) =
    Except.error "TypeError: unorderable types NoneType and int" := by
  simp [BuildingDevProcessor.process_data, BuildingDevProcessor.process_permits,
    BuildingDevProcessor.process_construction_activity,
    BuildingDevProcessor.process_permits_summary, calculate_change, PermitCounts.zero]

set_option maxHeartbeats 1000000 in
/-- C9: on every permits input on which process_construction_activity
returns normally, the construction intensity index lies in [0.4, 0.8]
(the -0.2 branch for a trend below -20 is shadowed by the -10 branch),
and the development phase is Stable or Moderate Growth; the labels
Strong Growth, Slowdown and Stagnation are never produced. -/
theorem process_construction_activity_bounds :
    ∀ (permits_data : Option PermitsResult) (r : ConstructionActivity),
      BuildingDevProcessor.process_construction_activity permits_data = Except.ok r →
      ((0.4 : ℚ) ≤ r.construction_intensity_index ∧
        r.construction_intensity_index ≤ 0.8) ∧
      (r.development_phase = "Stable" ∨ r.development_phase = "Moderate Growth") := by
  intro pd r h
  rcases pd with _ | pd
  · simp only [BuildingDevProcessor.process_construction_activity, exceptPure,
      exceptBind_ok] at h
    rw [Except.ok.injEq] at h
    subst h
    refine construction_ladder_stable_or_moderate 0.5 (by norm_num)
  · rcases htr : pd.summary.trend_yoy with _ | t
    · simp only [BuildingDevProcessor.process_construction_activity, htr, exceptPure,
        exceptBind_ok, exceptBind_error] at h
      exact Except.noConfusion h
    · simp only [BuildingDevProcessor.process_construction_activity, htr, exceptPure,
        exceptBind_ok, exceptBind_error] at h
      rw [Except.ok.injEq] at h
      subst h
      split_ifs <;> first | (exfalso; linarith) | norm_num

/-- Witness for C9: the empty permits input returns normally with index
0.5 and phase Stable. -/
theorem process_construction_activity_bounds_witness :
    ((0.4 : ℚ) ≤ (⟨0.5, "Stable", ⟨0, "18 months", "Low"⟩⟩ :
        ConstructionActivity).construction_intensity_index ∧
      (⟨0.5, "Stable", ⟨0, "18 months", "Low"⟩⟩ :
        ConstructionActivity).construction_intensity_index ≤ 0.8) ∧
    ((⟨0.5, "Stable", ⟨0, "18 months", "Low"⟩⟩ :
        ConstructionActivity).development_phase = "Stable" ∨
      (⟨0.5, "Stable", ⟨0, "18 months", "Low"⟩⟩ :
        ConstructionActivity).development_phase = "Moderate Growth") :=
  process_construction_activity_bounds none ⟨0.5, "Stable", ⟨0, "18 months", "Low"⟩⟩
    (by simp [BuildingDevProcessor.process_construction_activity]; norm_num; rfl)

/-- C4 counterexample: it is not the case that each of the five labels is
returned as rental_growth_potential for some combination of inputs; the
label Strong is never produced. -/
theorem rental_growth_potential_counterexample :
    ¬ (∀ lab ∈ (["Very weak", "Weak", "Moderate", "Good", "Strong"] : List String),
        ∃ re eco demo r,
          InvestmentProcessor.process_rental_market_potential re eco demo = Except.ok r ∧
          r.rental_growth_potential = lab) := by
  intro hclaim
  obtain ⟨re, eco, demo, r, hok, hlab⟩ := hclaim "Strong" (by simp)
  rcases rental_label_moderate_or_good re eco demo r hok with h | h <;>
    rw [hlab] at h <;> simp at h

/-- C4 amended: the demand index reaches only 0.4, 0.5, 0.6 and 0.7, so
exactly the labels Moderate and Good are produced: each of the two is
reached for some input, and every normal return carries one of the two
(the strict thresholds leave Strong, Weak and Very weak unreachable). -/
theorem rental_growth_potential_amended :
    (∃ re eco demo r,
      InvestmentProcessor.process_rental_market_potential re eco demo = Except.ok r ∧
      r.rental_growth_potential = "Moderate") ∧
    (∃ re eco demo r,
      InvestmentProcessor.process_rental_market_potential re eco demo = Except.ok r ∧
      r.rental_growth_potential = "Good") ∧
    (∀ re eco demo r,
      InvestmentProcessor.process_rental_market_potential re eco demo = Except.ok r →
      r.rental_growth_potential = "Moderate" ∨ r.rental_growth_potential = "Good") := by
  refine ⟨⟨none, none, none,
      ⟨InvestmentProcessor.default_gross_yield, 0.5, "Moderate"⟩, ?_, rfl⟩,
    ⟨none, none, some ⟨some 6⟩,
      ⟨InvestmentProcessor.default_gross_yield + 0.003, 0.5 + 0.2, "Good"⟩, ?_, rfl⟩,
    rental_label_moderate_or_good⟩
  · simp [InvestmentProcessor.process_rental_market_potential]
    norm_num
    rfl
  · simp [InvestmentProcessor.process_rental_market_potential]
    norm_num
    rfl

/-- Witness for C4 amended: the universal part applied to the run with
all sections absent, which returns the Moderate label. -/
theorem rental_growth_potential_amended_witness :
    ((⟨InvestmentProcessor.default_gross_yield, 0.5, "Moderate"⟩ :
        RentalMarketPotential)).rental_growth_potential = "Moderate" ∨
    ((⟨InvestmentProcessor.default_gross_yield, 0.5, "Moderate"⟩ :
        RentalMarketPotential)).rental_growth_potential = "Good" :=
  rental_growth_potential_amended.2.2 none none none
    ⟨InvestmentProcessor.default_gross_yield, 0.5, "Moderate"⟩
    (by simp [InvestmentProcessor.process_rental_market_potential]; norm_num; rfl)

/-- C3: for every report value the generator's save_json succeeds; the
serialization with the DecimalEncoder equals the default serialization of
the value with each Decimal replaced by the same plain number, so every
Decimal is encoded as a plain JSON number; and the default encoder alone
is undefined on a Decimal, which is why the custom encoder is needed. -/
theorem save_json_decimal_spec :
    (∀ v : JVal, MunicipalityGenerator.save_json v = true) ∧
    (∀ v : JVal, format_json_decimal v = format_json (stripDecimals v)) ∧
    (∀ q : ℚ, format_json (JVal.decimal q) = none) := by
  refine ⟨?_, format_json_decimal_eq_strip, fun q => rfl⟩
  intro v
  rw [MunicipalityGenerator.save_json]
  obtain ⟨s, hs⟩ := Option.isSome_iff_exists.mp (format_json_decimal_isSome v)
  rw [hs]

/-- C5: an exception in any step makes generate_for_commune return False;
generate_all records one boolean per commune, in order, each the result
of generate_for_commune; the reported success count is the number of True
results; and in the five-commune batch where extraction fails for
municipality 3 the results are True, True, False, True, True with a
summary of 4 out of 5. -/
theorem generate_all_isolates_failures :
    (∀ (env : GenEnv) (commune_id : ℕ),
      ((∃ e, env.get_commune_info commune_id = Except.error e) ∨
        (∃ e, env.extract_all_data commune_id = Except.error e) ∨
        (∃ e, env.process_data_step commune_id = Except.error e)) →
      MunicipalityGenerator.generate_for_commune env commune_id = false) ∧
    (∀ (env : GenEnv) (communes : List ℕ),
      (MunicipalityGenerator.generate_all env communes).map Prod.fst = communes ∧
      ∀ p ∈ MunicipalityGenerator.generate_all env communes,
        p.2 = MunicipalityGenerator.generate_for_commune env p.1) ∧
    (∀ results : List (ℕ × Bool),
      MunicipalityGenerator.success_count results = (results.map Prod.snd).count true) ∧
    (MunicipalityGenerator.generate_all batch_env [1, 2, 3, 4, 5] =
        [(1, true), (2, true), (3, false), (4, true), (5, true)] ∧
      MunicipalityGenerator.success_count
        (MunicipalityGenerator.generate_all batch_env [1, 2, 3, 4, 5]) = 4 ∧
      ([1, 2, 3, 4, 5] : List ℕ).length = 5) := by
  refine ⟨?_, ?_, ?_, by decide, by decide, rfl⟩
  · intro env commune_id h
    rcases h with ⟨e, he⟩ | ⟨e, he⟩ | ⟨e, he⟩
    · simp [MunicipalityGenerator.generate_for_commune, he]
    · rcases hinfo : env.get_commune_info commune_id with e2 | b
      · simp [MunicipalityGenerator.generate_for_commune, hinfo]
      · rcases b
        · simp [MunicipalityGenerator.generate_for_commune, hinfo]
        · simp [MunicipalityGenerator.generate_for_commune, hinfo, he]
    · rcases hinfo : env.get_commune_info commune_id with e2 | b
      · simp [MunicipalityGenerator.generate_for_commune, hinfo]
      · rcases b
        · simp [MunicipalityGenerator.generate_for_commune, hinfo]
        · rcases hext : env.extract_all_data commune_id with e2 | u
          · simp [MunicipalityGenerator.generate_for_commune, hinfo, hext]
          · simp [MunicipalityGenerator.generate_for_commune, hinfo, hext, he]
  · intro env communes
    by_cases hc : communes = []
    · subst hc
      simp [MunicipalityGenerator.generate_all]
    · rw [MunicipalityGenerator.generate_all, if_neg hc]
      constructor
      · rw [List.map_map]
        exact List.map_id communes
      · intro p hp
        simp only [List.mem_map] at hp
        obtain ⟨c, hcm, rfl⟩ := hp
        rfl
  · intro results
    induction results with
    | nil => rfl
    | cons hd tl ih =>
      obtain ⟨i, b⟩ := hd
      rcases b <;>
        simp [MunicipalityGenerator.success_count, List.count_cons, List.filter_cons]
          at ih ⊢ <;>
        omega

/-- Witness for C5: the failure-isolation part applied to municipality 3
of the batch environment, whose extraction step raises. -/
theorem generate_all_isolates_failures_witness :
    MunicipalityGenerator.generate_for_commune batch_env 3 = false :=
  generate_all_isolates_failures.1 batch_env 3
    (Or.inr (Or.inl ⟨"connection failure", rfl⟩))

/-- C8: calculate_median_age returns some age exactly when that age is
the smallest one in the distribution at which the cumulative population,
in ascending age order, reaches half of the given total population; on
the distribution of 100 people aged 30 and 50 people aged 70 with total
150 it returns 30. -/
theorem calculate_median_age_spec :
    (∀ (ages_data : List (ℕ × List ℕ)) (total : ℤ) (a : ℕ),
      (ages_data.map Prod.fst).Nodup → 0 < total → ages_data ≠ [] →
      (calculate_median_age ages_data total = some a ↔
        (a ∈ ages_data.map Prod.fst ∧
          (total : ℚ) / 2 ≤
            (cumulative_population (ages_data.map (fun e => (e.1, e.2.sum))) a : ℚ) ∧
          ∀ b ∈ ages_data.map Prod.fst, b < a →
            ((cumulative_population (ages_data.map (fun e => (e.1, e.2.sum))) b : ℚ) <
              (total : ℚ) / 2)))) ∧
    calculate_median_age [(30, [100]), (70, [50])] 150 = some 30 := by
  constructor
  · intro ages_data total a hnodup htotal hne
    have hguard : ¬ (ages_data = [] ∨ total ≤ 0) := by
      push_neg
      exact ⟨hne, by omega⟩
    rw [calculate_median_age, if_neg hguard]
    set dist := ages_data.map (fun e => (e.1, e.2.sum)) with hdist
    have hdist_ne : ¬ dist = [] := by
      simp [hdist, hne]
    rw [if_neg hdist_ne]
    have hkeys : dist.map Prod.fst = ages_data.map Prod.fst := by
      rw [hdist, List.map_map]
      rfl
    have hperm := List.perm_insertionSort (fun x y : ℕ × ℕ => x.1 ≤ y.1) dist
    have hkeysperm : List.Perm
        ((List.insertionSort (fun x y : ℕ × ℕ => x.1 ≤ y.1) dist).map Prod.fst)
        (dist.map Prod.fst) := hperm.map _
    have hnodup2 : (dist.map Prod.fst).Nodup := by
      rw [hkeys]
      exact hnodup
    have hnodups : ((List.insertionSort (fun x y : ℕ × ℕ => x.1 ≤ y.1) dist).map
        Prod.fst).Nodup := hkeysperm.nodup_iff.mpr hnodup2
    haveI : IsTotal (ℕ × ℕ) (fun x y => x.1 ≤ y.1) := ⟨fun a b => le_total a.1 b.1⟩
    haveI : IsTrans (ℕ × ℕ) (fun x y => x.1 ≤ y.1) := ⟨fun a b c hab hbc => le_trans hab hbc⟩
    have hsorted := List.sorted_insertionSort (fun x y : ℕ × ℕ => x.1 ≤ y.1) dist
    have hpairwise : (List.insertionSort (fun x y : ℕ × ℕ => x.1 ≤ y.1) dist).Pairwise
        (fun x y => x.1 < y.1) := by
      have hne' := List.pairwise_map.mp hnodups
      exact (hsorted.and hne').imp (fun hab => lt_of_le_of_ne hab.1 hab.2)
    rw [medianScan_some_iff ((total : ℚ) / 2) _ 0 hpairwise a]
    have hcum : ∀ x, cumulative_population
        (List.insertionSort (fun x y : ℕ × ℕ => x.1 ≤ y.1) dist) x =
        cumulative_population dist x := by
      intro x
      rw [cumulative_population, cumulative_population]
      exact List.Perm.sum_eq ((hperm.filter _).map _)
    have hmemiff : ∀ x, (x ∈ (List.insertionSort (fun x y : ℕ × ℕ => x.1 ≤ y.1) dist).map
        Prod.fst ↔ x ∈ ages_data.map Prod.fst) := by
      intro x
      rw [← hkeys]
      exact hkeysperm.mem_iff
    simp only [hcum, hmemiff, Nat.cast_zero, zero_add]
  · rw [calculate_median_age, if_neg (by simp)]
    have hstep : ([(30, [100]), (70, [50])] : List (ℕ × List ℕ)).map
        (fun e => (e.1, e.2.sum)) = [(30, 100), (70, 50)] := by
      norm_num
    rw [hstep, if_neg (by simp)]
    have hsort : List.insertionSort (fun x y : ℕ × ℕ => x.1 ≤ y.1) [(30, 100), (70, 50)] =
        [(30, 100), (70, 50)] := by
      norm_num [List.insertionSort, List.orderedInsert]
    rw [hsort, medianScan]
    rw [if_pos (by norm_num)]

/-- Witness for C8: the characterization applied at the concrete
distribution, whose median-age equality it converts into the
least-crossing property of age 30. -/
theorem calculate_median_age_spec_witness :
    30 ∈ ([(30, [100]), (70, [50])] : List (ℕ × List ℕ)).map Prod.fst ∧
    ((150 : ℤ) : ℚ) / 2 ≤
      (cumulative_population
        (([(30, [100]), (70, [50])] : List (ℕ × List ℕ)).map (fun e => (e.1, e.2.sum))) 30 : ℚ) ∧
    ∀ b ∈ ([(30, [100]), (70, [50])] : List (ℕ × List ℕ)).map Prod.fst, b < 30 →
      ((cumulative_population
        (([(30, [100]), (70, [50])] : List (ℕ × List ℕ)).map (fun e => (e.1, e.2.sum))) b : ℚ) <
        ((150 : ℤ) : ℚ) / 2) :=
  (calculate_median_age_spec.1 [(30, [100]), (70, [50])] 150 30 (by simp) (by norm_num)
    (by simp)).mp calculate_median_age_spec.2

end ImmoScore
